import Mathlib

/-!
Verification of the voice-webhook intent pipeline (RetailMind).

Shallow embedding of the core modules:
  app/services/nlu_rules.py        (rule-based classifier)
  app/services/speech_generator.py (translations and speech rendering)
  app/services/handlers.py         (data operations: create_reorder, get_sales_summary)
  app/services/database.py         (inventory query builder)
  app/services/intent_router.py    (route_intent orchestrator)
  app/constants.py

Conventions of the embedding:
* Python dicts become association lists `List (String × JVal)`; insertion
  order and in-place update semantics of Python dicts are preserved by `eset`.
* Python regular-expression searches are embedded per pattern.  Every pattern
  used by the classifier is either a literal (substring search) or of the
  shape `A.*B` (literal `A`, then `B` later on the same line, since `.` does
  not match a newline).  `\b\d+\b` and the leading `(\d+)` group are embedded
  directly as digit-run scanners over the character list.  Character classes
  are the ASCII ones; the transcripts the spec talks about are ASCII.
* Dates are modelled as integers (day numbers); ISO formatting/parsing of
  well-formed dates is the identity in this model.  Floats are modelled as
  rationals.
* Exceptions become `Except String` values; external collaborators (the
  OpenAI classifier, the Supabase store) are inputs to the functions that
  consult them.
-/

/-! ## JSON-like values (Python dict / list / scalar payloads) -/

inductive JVal where
  | s (v : String)
  | i (v : Int)
  | q (v : Rat)
  | b (v : Bool)
  | null
  | arr (vs : List JVal)
  | obj (fields : List (String × JVal))

abbrev EntMap := List (String × JVal)
abbrev RDict := List (String × JVal)

/-- Association-list lookup, i.e. Python `d.get(key)` (keys are unique). -/
def lk {α : Type} (key : String) : List (String × α) → Option α
  | [] => none
  | p :: rest => if p.1 = key then some p.2 else lk key rest

/-- Python `d[key] = v`: overwrite in place when the key exists (keeping its
slot in insertion order), else append at the end. -/
def eset (m : EntMap) (key : String) (v : JVal) : EntMap :=
  match m with
  | [] => [(key, v)]
  | (k, w) :: rest => if k = key then (k, v) :: rest else (k, w) :: eset rest key v

/-- Python `key in d`. -/
def hasKey (m : RDict) (key : String) : Bool := (lk key m).isSome

/-- Python `d.get(key, default)`. -/
def jgetD (m : RDict) (key : String) (d : JVal) : JVal := (lk key m).getD d

/-- Python `d.get(key, default)` where the caller then uses the value as a
string.  Handler results are built from schema-typed store rows, so a
non-string value at these keys is unreachable; the model returns the default
there. -/
def jgetSD (m : RDict) (key : String) (d : String) : String :=
  match lk key m with
  | some (.s v) => v
  | some _ => d
  | none => d

/-- Python `d.get(key, [])` used as a list (see `jgetSD` on typing). -/
def jgetArr (m : RDict) (key : String) : List JVal :=
  match lk key m with
  | some (.arr l) => l
  | some _ => []
  | none => []

/-- Fields of a dict-valued element (`items[0]` in the speech generator). -/
def jfields : JVal → List (String × JVal)
  | .obj fs => fs
  | _ => []

/-- Python truthiness. -/
def jTruthy : JVal → Bool
  | .s v => v.length != 0
  | .i n => n != 0
  | .q v => v != 0
  | .b v => v
  | .null => false
  | .arr l => !l.isEmpty
  | .obj l => !l.isEmpty

/-- Python `str()` on the scalar values the speech templates substitute.
(`str` of a float/list/dict is approximated; no template in the claims
renders those shapes.) -/
def pyStr : JVal → String
  | .s v => v
  | .i n => toString n
  | .q v => toString v
  | .b true => "True"
  | .b false => "False"
  | .null => "None"
  | .arr _ => "[...]"
  | .obj _ => "\x7b...\x7d"

/-! ## Embedded regular-expression searches (`re.search`, `re.findall`) -/

/-- Does `p` hold of some suffix of the list (a match starting anywhere)? -/
def anywhere (p : List Char → Bool) : List Char → Bool
  | [] => p []
  | c :: rest => p (c :: rest) || anywhere p rest

/-- `B` occurs at or after this position with no newline before it
(the `.*B` tail of a pattern: `.` does not match a newline). -/
def dotTail (b : List Char) : List Char → Bool
  | [] => b.isEmpty
  | c :: rest => b.isPrefixOf (c :: rest) || (c != '\n' && dotTail b rest)

/-- `re.search(a, t)` for a literal pattern `a`: substring search. -/
def reLit (a : String) (t : List Char) : Bool :=
  anywhere (fun l => a.data.isPrefixOf l) t

/-- `re.search("A.*B", t)`: literal `A`, then `B` with no newline between. -/
def reAB (a b : String) (t : List Char) : Bool :=
  anywhere (fun l => a.data.isPrefixOf l && dotTail b.data (l.drop a.data.length)) t

/-- Python `\w` on ASCII. -/
def wordChar (c : Char) : Bool := c.isAlphanum || c == '_'

/-- State for the `\b\d+\b` scanner: current digit run (reversed), whether it
started at a word boundary, whether the previous character was a word
character, and the runs collected so far. -/
structure RunSt where
  cur : List Char
  valid : Bool
  prevW : Bool
  runs : List String

def runStep (st : RunSt) (c : Char) : RunSt :=
  if c.isDigit then
    if st.cur.isEmpty then { st with cur := [c], valid := !st.prevW, prevW := true }
    else { st with cur := c :: st.cur, prevW := true }
  else
    let runs := if !st.cur.isEmpty && st.valid && !wordChar c
      then st.runs ++ [String.mk st.cur.reverse] else st.runs
    { cur := [], valid := false, prevW := wordChar c, runs := runs }

/-- `re.findall(r"\b\d+\b", t)`: maximal digit runs delimited by word
boundaries, in order of occurrence. -/
def bruns (t : List Char) : List String :=
  let st := t.foldl runStep ⟨[], false, false, []⟩
  if !st.cur.isEmpty && st.valid then st.runs ++ [String.mk st.cur.reverse] else st.runs

/-- Group 1 of `re.search(r"(\d+)...", t)`: the leftmost maximal digit run. -/
def firstRun : List Char → Option String
  | [] => none
  | c :: rest => if c.isDigit then some (String.mk ((c :: rest).takeWhile Char.isDigit))
                 else firstRun rest

/-- Python `int` on a digit string. -/
def digitsToInt (s : String) : Int :=
  Int.ofNat (s.data.foldl (fun a c => a * 10 + (c.toNat - 48)) 0)

/-- Python `str.lower` (agrees on ASCII, which is all the patterns use). -/
def lowerStr (s : String) : String := String.mk (s.data.map Char.toLower)

/-- Case-insensitive substring containment (Postgres `ilike '%pat%'`). -/
def ilikeContains (pat field : String) : Bool :=
  anywhere (fun l => (lowerStr pat).data.isPrefixOf l) (lowerStr field).data

/-! ## `app/models/schemas.py` — request and response shapes -/

/-- `OMIEventRequest`: transcript, device entities, session id, language. -/
structure OMIEventRequest where
  transcript : String
  entities : EntMap
  session_id : Option String
  language : Option String

/-- The `{"intent": ..., "entities": ...}` dict both classifiers return. -/
structure ParsedIntent where
  intent : String
  entities : EntMap

/-- `OMIResponse`: the response envelope. -/
structure OMIResponse where
  ok : Bool
  intent : String
  entities : EntMap
  result : RDict
  speech : String

/-! ## `app/services/nlu_rules.py` — rule-based classifier -/

def stockMatch (t : List Char) : Bool :=
  reAB "how many" "left" t || reAB "how many" "in stock" t || reAB "stock" "level" t ||
  reAB "inventory" "count" t || reAB "quantity" "available" t || reLit "do we have" t ||
  reAB "what" "stock" t

def reorderMatch (t : List Char) : Bool :=
  reLit "restock" t || reLit "reorder" t || reAB "order" "more" t ||
  reAB "purchase" "order" t || reAB "buy" "more" t

def salesMatch (t : List Char) : Bool :=
  reAB "sales" "summary" t || reAB "how many" "sold" t || reAB "total" "sales" t ||
  reLit "revenue" t || reAB "sales" "report" t

def supplierMatch (t : List Char) : Bool :=
  reLit "supplier" t || reLit "vendor" t || reAB "who" "supplies" t ||
  reAB "supplier" "info" t

def deliveryMatch (t : List Char) : Bool :=
  reAB "delivery" "status" t || reAB "when" "arrive" t || reLit "shipment" t ||
  reAB "order" "status" t || reAB "when" "deliver" t

def colorList : List String :=
  ["red", "blue", "black", "white", "green", "yellow", "brown", "gray", "grey"]

def sizeList : List String :=
  ["xs", "small", "s", "medium", "m", "large", "l", "xl", "xxl"]

/-- `for color in [...] : if color in transcript: entities["color"] = color` -/
def colorStep (t : List Char) (e : EntMap) : EntMap :=
  colorList.foldl (fun e c => if anywhere (fun l => c.data.isPrefixOf l) t
                              then eset e "color" (.s c) else e) e

def sizeStep (t : List Char) (e : EntMap) : EntMap :=
  sizeList.foldl (fun e c => if anywhere (fun l => c.data.isPrefixOf l) t
                             then eset e "size" (.s c) else e) e

/-- trailing numeric token of length ≥ 4 becomes the SKU -/
def skuStep (t : List Char) (e : EntMap) : EntMap :=
  match (bruns t).getLast? with
  | some last => if last.length ≥ 4 then eset e "sku" (.s last) else e
  | none => e

/-- `(\d+)\s*(?:units?|pieces?|items?)?` group 1 becomes the quantity -/
def qtyStep (t : List Char) (e : EntMap) : EntMap :=
  match firstRun t with
  | some ds => eset e "quantity" (.i (digitsToInt ds))
  | none => e

def windowStep (t : List Char) (e : EntMap) : EntMap :=
  let w : Int :=
    if reLit "week" t || reLit "7" t then 7
    else if reLit "month" t || reLit "30" t then 30
    else if reLit "day" t then 1
    else 7
  eset e "window_days" (.i w)

def idStep (t : List Char) (e : EntMap) : EntMap :=
  match (bruns t).getLast? with
  | some last => eset (eset e "reorder_id" (.s last)) "purchase_order_id" (.s last)
  | none => e

/-- The body of `parse_intent_rules` on the lowered transcript: the five
pattern groups are tested one after the other, each match overwriting
`intent` and extending the (single, shared) entity mapping. -/
def parseCore (t : List Char) (e0 : EntMap) : ParsedIntent :=
  let i1 : Option String := if stockMatch t then some "get_stock" else none
  let e1 := if stockMatch t then skuStep t (sizeStep t (colorStep t e0)) else e0
  let i2 := if reorderMatch t then some "create_reorder" else i1
  let e2 := if reorderMatch t then sizeStep t (colorStep t (qtyStep t e1)) else e1
  let i3 := if salesMatch t then some "get_sales_summary" else i2
  let e3 := if salesMatch t then windowStep t e2 else e2
  let i4 := if supplierMatch t then some "get_supplier_info" else i3
  let e4 := if supplierMatch t then skuStep t e3 else e3
  let i5 := if deliveryMatch t then some "get_delivery_status" else i4
  let e5 := if deliveryMatch t then idStep t e4 else e4
  ⟨i5.getD "get_stock", e5⟩

def parse_intent_rules (req : OMIEventRequest) : ParsedIntent :=
  parseCore (lowerStr req.transcript).data req.entities

/-- Python `entities = request.entities or {}` aliases the device-supplied
dict whenever it is non-empty, so every entity write of the classifier
mutates the request object in place; only an empty (falsy) device mapping is
replaced by a fresh dict.  This function gives the value of
`request.entities` after `parse_intent_rules` has run. -/
def entitiesAfterRules (req : OMIEventRequest) : EntMap :=
  if req.entities.isEmpty then [] else (parse_intent_rules req).entities

/-! ## `app/services/speech_generator.py` — translations and speech -/

/-- One piece of a `str.format` template: a literal, or a `\x7bname\x7d`
placeholder (`f2` marks the one `:.2f` format spec used for revenue). -/
inductive TItem where
  | lit (s : String)
  | hole (name : String) (f2 : Bool)

abbrev Template := List TItem

/-- The template's source text (braces written back around the holes). -/
def rawT : Template → String
  | [] => ""
  | .lit s :: rest => s ++ rawT rest
  | .hole n f2 :: rest =>
      "\x7b" ++ n ++ (if f2 then ":.2f" else "") ++ "\x7d" ++ rawT rest

/-- Python `"%.2f"`-style rendering of a rational (`round` is half-up here
where CPython is half-even on binary floats; no claim depends on ties). -/
def q2dec (v : Rat) : String :=
  let n : Int := round (v * 100)
  let m := n.natAbs
  (if n < 0 then "-" else "") ++ toString (m / 100) ++ "." ++
    (if m % 100 < 10 then "0" else "") ++ toString (m % 100)

/-- Substituted value of a hole: `str(v)`, or 2-decimal rendering under
`:.2f` (only ever applied to numbers). -/
def fmt2Str (f2 : Bool) (v : JVal) : String :=
  if f2 then
    match v with
    | .i n => toString n ++ ".00"
    | .q v => q2dec v
    | other => pyStr other
  else pyStr v

def renderT (kw : List (String × JVal)) : Template → String
  | [] => ""
  | .lit s :: rest => s ++ renderT kw rest
  | .hole n f2 :: rest =>
      (match lk n kw with
       | some v => fmt2Str f2 v
       | none => "") ++ renderT kw rest

/-- `template.format(**kwargs)` wrapped in `try/except KeyError`: if every
placeholder is bound the rendering is returned, otherwise the raw template
text (the `KeyError` branch). -/
def pyFormat (t : Template) (kw : List (String × JVal)) : String :=
  if t.all (fun it => match it with
                      | .hole n _ => (lk n kw).isSome
                      | .lit _ => true)
  then renderT kw t else rawT t

def enTable : List (String × Template) :=
  [("error_generic", [.lit "I\x27m sorry, something went wrong while processing your request."]),
   ("error_parse", [.lit "I\x27m sorry, I couldn\x27t understand your request. Please try again."]),
   ("error_unknown_intent", [.lit "I\x27m sorry, I don\x27t know how to handle that type of request."]),
   ("error_not_found", [.lit "I couldn\x27t find that product."]),
   ("error_reorder", [.lit "I couldn\x27t create that reorder."]),
   ("error_sales", [.lit "I couldn\x27t retrieve sales data."]),
   ("error_supplier", [.lit "I couldn\x27t find supplier information."]),
   ("error_delivery", [.lit "I couldn\x27t find delivery information."]),
   ("no_products", [.lit "No products found matching your criteria."]),
   ("low_stock_warning", [.lit "This product is running low and needs restocking."]),
   ("stock_prefix", [.lit "There are"]),
   ("stock_suffix", [.lit "in stock."]),
   ("stock_color_prefix", [.lit "in"]),
   ("stock_size_prefix", [.lit "size"]),
   ("stock_multiple", [.lit "Found ", .hole "count" false,
      .lit " matching products with a total quantity of ", .hole "total" false, .lit "."]),
   ("reorder_success", [.lit "Created reorder ", .hole "reorder_id" false, .lit " for ",
      .hole "quantity" false, .lit " ", .hole "product_name" false, .lit ". Status: ",
      .hole "status" false]),
   ("sales_prefix", [.lit "In the last ", .hole "days" false, .lit " days,"]),
   ("sales_sold", [.lit "you sold ", .hole "quantity" false, .lit " items"]),
   ("sales_revenue", [.lit "with total revenue of $", .hole "revenue" true]),
   ("supplier_info", [.lit "The supplier is ", .hole "name" false,
      .lit " with a lead time of ", .hole "days" false, .lit " days."]),
   ("delivery_status", [.lit "Order status is ", .hole "status" false, .lit "."]),
   ("delivery_eta", [.lit "Expected delivery date is ", .hole "eta" false, .lit "."]),
   ("request_success", [.lit "Request processed successfully."])]

def esTable : List (String × Template) :=
  [("error_generic", [.lit "Lo siento, algo salió mal al procesar tu solicitud."]),
   ("error_parse", [.lit "Lo siento, no pude entender tu solicitud. Por favor, inténtalo de nuevo."]),
   ("error_unknown_intent", [.lit "Lo siento, no sé cómo manejar ese tipo de solicitud."]),
   ("error_not_found", [.lit "No pude encontrar ese producto."]),
   ("error_reorder", [.lit "No pude crear esa reorden."]),
   ("error_sales", [.lit "No pude recuperar los datos de ventas."]),
   ("error_supplier", [.lit "No pude encontrar información del proveedor."]),
   ("error_delivery", [.lit "No pude encontrar información de entrega."]),
   ("no_products", [.lit "No se encontraron productos que coincidan con tus criterios."]),
   ("low_stock_warning", [.lit "Este producto se está agotando y necesita reabastecimiento."]),
   ("stock_prefix", [.lit "Hay"]),
   ("stock_suffix", [.lit "en stock."]),
   ("stock_color_prefix", [.lit "en"]),
   ("stock_size_prefix", [.lit "talla"]),
   ("stock_multiple", [.lit "Se encontraron ", .hole "count" false,
      .lit " productos que coinciden con una cantidad total de ", .hole "total" false, .lit "."]),
   ("reorder_success", [.lit "Reorden ", .hole "reorder_id" false, .lit " creada para ",
      .hole "quantity" false, .lit " ", .hole "product_name" false, .lit ". Estado: ",
      .hole "status" false]),
   ("sales_prefix", [.lit "En los últimos ", .hole "days" false, .lit " días,"]),
   ("sales_sold", [.lit "vendiste ", .hole "quantity" false, .lit " artículos"]),
   ("sales_revenue", [.lit "con un ingreso total de $", .hole "revenue" true]),
   ("supplier_info", [.lit "El proveedor es ", .hole "name" false,
      .lit " con un tiempo de entrega de ", .hole "days" false, .lit " días."]),
   ("delivery_status", [.lit "El estado del pedido es ", .hole "status" false, .lit "."]),
   ("delivery_eta", [.lit "La fecha de entrega esperada es ", .hole "eta" false, .lit "."]),
   ("request_success", [.lit "Solicitud procesada exitosamente."])]

def TRANSLATIONS : List (String × List (String × Template)) :=
  [("en", enTable), ("es", esTable)]

/-- `get_translation(language, key, **kwargs)`.  The final fallback returns
the key itself: every caller passes a brace-free literal key, on which
`key.format(**kwargs)` is the identity (or returns `key` via `KeyError`). -/
def get_translation (language key : String) (kwargs : List (String × JVal)) : String :=
  let lang := if language = "" then "en" else lowerStr language
  let lang2 := if (lk lang TRANSLATIONS).isSome then lang else "en"
  match lk lang2 TRANSLATIONS with
  | some tbl =>
      match lk key tbl with
      | some t => pyFormat t kwargs
      | none =>
          match lk key enTable with
          | some t => pyFormat t kwargs
          | none => key
  | none => key

/-- Python `" ".join(parts)`. -/
def joinSp : List String → String
  | [] => ""
  | [x] => x
  | x :: xs => x ++ " " ++ joinSp xs

/-- `generate_speech(intent, result, language)`.  Store rows are
schema-typed, so the string-typed accessors (`jgetSD`, `jgetArr`) never see a
wrongly-typed value on results the handlers actually produce. -/
def generate_speech (intent : String) (result : RDict) (language : String) : String :=
  let lang := if language = "" then "en" else lowerStr language
  if intent = "get_stock" then
    if hasKey result "error" then get_translation lang "error_not_found" []
    else
      let items := jgetArr result "items"
      if items.isEmpty then get_translation lang "no_products" []
      else if items.length = 1 then
        let item := jfields (items.headD .null)
        let name := jgetSD item "name" "item"
        let quantity := jgetD item "quantity" (.i 0)
        let low_stock := jgetD item "low_stock" (.b false)
        let parts1 := [get_translation lang "stock_prefix" [], pyStr quantity,
                       name ++ (if lang = "en" then "s" else "")]
        let colorV := jgetD item "color" .null
        let parts2 := if jTruthy colorV
          then parts1 ++ [get_translation lang "stock_color_prefix" [], pyStr colorV]
          else parts1
        let sizeV := jgetD item "size" .null
        let parts3 := if jTruthy sizeV
          then parts2 ++ [get_translation lang "stock_size_prefix" [], pyStr sizeV]
          else parts2
        let speech := joinSp (parts3 ++ [get_translation lang "stock_suffix" []])
        if jTruthy low_stock
          then speech ++ " " ++ get_translation lang "low_stock_warning" []
          else speech
      else
        let total := items.foldl (fun a it => a + (match jgetD (jfields it) "quantity" (.i 0) with
          | .i n => n
          | _ => 0)) 0
        get_translation lang "stock_multiple"
          [("count", .i items.length), ("total", .i total)]
  else if intent = "create_reorder" then
    if hasKey result "error" then
      let error_msg := jgetSD result "error_message" ""
      if error_msg ≠ "" then
        if reLit "not found" (lowerStr error_msg).data then
          get_translation lang "error_not_found" []
        else get_translation lang "error_reorder" [] ++ ": " ++ error_msg
      else get_translation lang "error_reorder" []
    else
      let reorder_id := jgetD result "reorder_id" (.s "order")
      let quantity := jgetD result "quantity" (.i 0)
      let product_name := jgetD result "product_name"
        (.s (if lang = "en" then "items" else "artículos"))
      let status := jgetD result "status" (.s "pending")
      get_translation lang "reorder_success"
        [("reorder_id", reorder_id), ("quantity", quantity),
         ("product_name", product_name), ("status", status)]
  else if intent = "get_sales_summary" then
    if hasKey result "error" then get_translation lang "error_sales" []
    else
      let total_qty := jgetD result "total_quantity" (.i 0)
      let total_revenue := jgetD result "total_revenue" (.i 0)
      let window_days := jgetD result "window_days" (.i 7)
      joinSp [get_translation lang "sales_prefix" [("days", window_days)],
              get_translation lang "sales_sold" [("quantity", total_qty)],
              get_translation lang "sales_revenue" [("revenue", total_revenue)]]
  else if intent = "get_supplier_info" then
    if hasKey result "error" then get_translation lang "error_supplier" []
    else
      let supplier_name := jgetD result "supplier_name"
        (.s (if lang = "en" then "supplier" else "proveedor"))
      let lead_time := jgetD result "lead_time_days" (.i 0)
      get_translation lang "supplier_info"
        [("name", supplier_name), ("days", lead_time)]
  else if intent = "get_delivery_status" then
    if hasKey result "error" then get_translation lang "error_delivery" []
    else
      let status := jgetD result "status" (.s "unknown")
      let eta := jgetD result "eta" .null
      let speech := get_translation lang "delivery_status" [("status", status)]
      if jTruthy eta
        then speech ++ " " ++ get_translation lang "delivery_eta" [("eta", eta)]
        else speech
  else get_translation lang "request_success" []

/-! ## `app/constants.py` -/

def MAX_QUERY_RESULTS : Nat := 20
def DEFAULT_REORDER_QUANTITY : Int := 50
def DEFAULT_SALES_WINDOW_DAYS : Int := 7
def REORDER_DUE_DAYS : Int := 7
def TASK_TYPE_REORDER : String := "Reorder"
def TASK_STATUS_PENDING : String := "Pending"
def EMPLOYEE_SYSTEM : String := "System"

/-! ## `app/services/database.py` — inventory query builder

Inventory rows are the store's schema-typed records (non-null text columns
for identifier and name; `supplier_id` may be null). -/

structure InvRow where
  product_id : String
  name : String
  category : String
  color : String
  size : String
  stock_quantity : Int
  reorder_threshold : Int
  supplier_id : Option String
deriving DecidableEq

/-- Truthiness of `filters.get(k)` (absent key is `None`, hence falsy). -/
def fTruthy (filters : EntMap) (k : String) : Bool :=
  match lk k filters with
  | some v => jTruthy v
  | none => false

def fVal (filters : EntMap) (k : String) : JVal := (lk k filters).getD .null

/-- `build_inventory_query(filters)` applied to the store's inventory table:
exact match on `product_id` if present, else chained case-insensitive
substring filters on name/category/color and exact match on size, capped at
`MAX_QUERY_RESULTS`. -/
def build_inventory_query (filters : EntMap) (inv : List InvRow) : List InvRow :=
  let q :=
    if fTruthy filters "product_id" then
      inv.filter (fun r => pyStr (fVal filters "product_id") == r.product_id)
    else
      let q := if fTruthy filters "name"
        then inv.filter (fun r => ilikeContains (pyStr (fVal filters "name")) r.name) else inv
      let q := if fTruthy filters "category"
        then q.filter (fun r => ilikeContains (pyStr (fVal filters "category")) r.category) else q
      let q := if fTruthy filters "color"
        then q.filter (fun r => ilikeContains (pyStr (fVal filters "color")) r.color) else q
      let q := if fTruthy filters "size"
        then q.filter (fun r => pyStr (fVal filters "size") == r.size) else q
      q
  q.take MAX_QUERY_RESULTS

/-! ## `app/services/handlers.py` — data operations -/

/-- The task row `handle_create_reorder` inserts (dates are day numbers;
`isoformat` of a well-formed date is the identity in this model). -/
structure TaskRow where
  task_id : String
  employee_name : String
  employee_role : String
  task_type : String
  assigned_date : Int
  due_date : Int
  status : String
  related_product : String
deriving DecidableEq

/-- `handle_create_reorder(entities)` against inventory `inv` on day `today`.
`genId` is the generated `TASK`-prefixed identifier (from `uuid4`), and
`insertOK` tells whether the store's insert returned the row.  Returns the
handler's result dict together with the list of task rows that were
inserted. -/
def handle_create_reorder (entities : EntMap) (inv : List InvRow) (today : Int)
    (genId : String) (insertOK : Bool) : RDict × List TaskRow :=
  let quantity := jgetD entities "quantity" (.i DEFAULT_REORDER_QUANTITY)
  match (build_inventory_query entities inv).take 1 with
  | [] => ([("error", .b true), ("error_message", .s "Product not found")], [])
  | p :: _ =>
    let task_data : TaskRow :=
      ⟨genId, EMPLOYEE_SYSTEM, EMPLOYEE_SYSTEM, TASK_TYPE_REORDER,
       today, today + REORDER_DUE_DAYS, TASK_STATUS_PENDING, p.product_id⟩
    if insertOK then
      ([("task_id", .s genId),
        ("product_id", .s p.product_id),
        ("product_name", .s p.name),
        ("quantity", quantity),
        ("status", .s "pending"),
        ("supplier_id", match p.supplier_id with | some s => .s s | none => .null),
        ("due_date", .i (today + REORDER_DUE_DAYS))], [task_data])
    else ([("error", .b true), ("error_message", .s "Failed to create reorder task")], [task_data])

/-- A sales transaction row (schema-typed: a present, well-formed sale date;
`revenue` nulls already coalesced to 0 by `or 0`). -/
structure SaleRow where
  sale_date : Int
  quantity_sold : Int
  revenue : Rat
deriving DecidableEq

/-- The store's `order("sale_date", desc).limit(1)`: the most recent sale
date, if any sales exist. -/
def maxSaleDate (sales : List SaleRow) : Option Int :=
  match sales with
  | [] => none
  | r :: rest => some (rest.foldl (fun m x => max m x.sale_date) r.sale_date)

/-- Python `round(x, 2)` (half-up here where CPython is half-even on binary
floats; every claim evaluates it away from ties). -/
def round2 (v : Rat) : Rat := ((round (v * 100) : Int) : Rat) / 100

/-- `handle_get_sales_summary(entities)` against the sales table on day
`today`.  A non-integer `window_days` value makes the Python date arithmetic
raise inside the `try`, which `handle_database_error` converts to a generic
error marker. -/
def handle_get_sales_summary (entities : EntMap) (sales : List SaleRow) (today : Int) : RDict :=
  match lk "window_days" entities with
  | some (.i window_days) =>
      let reference := (maxSaleDate sales).getD today
      let start_date := reference - window_days
      let end_date := reference
      let rows := sales.filter (fun r => start_date ≤ r.sale_date && r.sale_date ≤ end_date)
      [("total_quantity", .i (rows.foldl (fun a r => a + r.quantity_sold) 0)),
       ("total_revenue", .q (round2 (rows.foldl (fun a r => a + r.revenue) 0))),
       ("window_days", .i window_days),
       ("transaction_count", .i rows.length),
       ("start_date", .i start_date),
       ("end_date", .i end_date)]
  | none =>
      let window_days := DEFAULT_SALES_WINDOW_DAYS
      let reference := (maxSaleDate sales).getD today
      let start_date := reference - window_days
      let end_date := reference
      let rows := sales.filter (fun r => start_date ≤ r.sale_date && r.sale_date ≤ end_date)
      [("total_quantity", .i (rows.foldl (fun a r => a + r.quantity_sold) 0)),
       ("total_revenue", .q (round2 (rows.foldl (fun a r => a + r.revenue) 0))),
       ("window_days", .i window_days),
       ("transaction_count", .i rows.length),
       ("start_date", .i start_date),
       ("end_date", .i end_date)]
  | some _ =>
      [("error", .b true),
       ("error_message", .s "Database operation failed: unsupported window value")]

/-! ## `app/services/intent_router.py` — orchestrator -/

def INTENT_HANDLERS : List String :=
  ["get_stock", "create_reorder", "get_sales_summary", "get_supplier_info",
   "get_delivery_status"]

/-- The router's context: the settings it consults and the behaviour of its
external collaborators.  `openaiOutcome` is what `parse_intent_openai`
does (returns a parse or raises); `handlerOutcome intent entities` is what
the dispatched data operation does (returns its result dict or raises). -/
structure RouterCtx where
  INTENT_PROVIDER : String
  DEFAULT_LANGUAGE : String
  openaiOutcome : Except String ParsedIntent
  handlerOutcome : String → EntMap → Except String RDict

/-- The classification step of `route_intent`: the primary classifier with
the rule-based fallback on failure.  `parse_intent_rules` is total, so the
router's outer `except` (intent `"unknown"`, `ok=false`) is unreachable. -/
def classify (ctx : RouterCtx) (req : OMIEventRequest) : ParsedIntent :=
  if ctx.INTENT_PROVIDER = "openai" then
    match ctx.openaiOutcome with
    | .ok p => p
    | .error _ => parse_intent_rules req
  else parse_intent_rules req

/-- The heuristic error speech of the handler-exception branch. -/
def handlerErrorSpeech (language e : String) : String :=
  if reLit "not found" (lowerStr e).data then
    get_translation language "error_not_found" []
  else if reLit "connection" (lowerStr e).data || reLit "timeout" (lowerStr e).data then
    get_translation language "error_generic" [] ++ " " ++ get_translation language "error_parse" []
  else get_translation language "error_generic" []

/-- `route_intent(request)`.  Exceptions of the collaborators arrive as
`Except.error` values in `ctx`; the function is total, i.e. every path
produces an envelope. -/
def route_intent (ctx : RouterCtx) (req : OMIEventRequest) : OMIResponse :=
  let language := match req.language with
    | some l => if l = "" then ctx.DEFAULT_LANGUAGE else l
    | none => ctx.DEFAULT_LANGUAGE
  let parsed := classify ctx req
  let intent := parsed.intent
  let entities := parsed.entities
  if INTENT_HANDLERS.contains intent then
    match ctx.handlerOutcome intent entities with
    | .ok result =>
        ⟨true, intent, entities, result, generate_speech intent result language⟩
    | .error e =>
        ⟨false, intent, entities, [("error", .s e)], handlerErrorSpeech language e⟩
  else
    ⟨false, intent, entities, [("error", .s ("Unknown intent: " ++ intent))],
     get_translation language "error_unknown_intent" []⟩

/-! ## The claim-side characterisation of the classifier's precedence -/

/-- The spec's description of the precedence (spec §4.1 / §9): the intent of
the LAST matching group in table order — stock, reorder, sales, supplier,
delivery — wins, with the stock intent as default when nothing matches. -/
def lastMatchIntent (t : List Char) : String :=
  if deliveryMatch t then "get_delivery_status"
  else if supplierMatch t then "get_supplier_info"
  else if salesMatch t then "get_sales_summary"
  else if reorderMatch t then "create_reorder"
  else if stockMatch t then "get_stock"
  else "get_stock"

/-! ## Helper lemmas: strings -/

theorem str_append_ne (a b : String) (h : a ≠ "") : a ++ b ≠ "" := by
  intro hc
  apply h
  have hd := congrArg String.data hc
  rw [String.data_append] at hd
  exact String.ext (List.append_eq_nil.mp hd).1

theorem joinSp_cons_ne (a : String) (l : List String) (h : a ≠ "") :
    joinSp (a :: l) ≠ "" := by
  cases l with
  | nil => simpa [joinSp] using h
  | cons x xs =>
    show a ++ " " ++ joinSp (x :: xs) ≠ ""
    exact str_append_ne _ _ (str_append_ne _ _ h)

/-! ## Helper lemmas: translations -/

/-- The template starts with a non-empty literal. -/
def headLitNE : Template → Bool
  | .lit s :: _ => s.length != 0
  | _ => false

/-- The key is defined in both language tables, with non-degenerate
templates. -/
def goodKey (k : String) : Bool :=
  match lk k enTable, lk k esTable with
  | some a, some b => headLitNE a && headLitNE b
  | _, _ => false

theorem pyFormat_ne (t : Template) (kw : List (String × JVal))
    (h : headLitNE t = true) : pyFormat t kw ≠ "" := by
  cases t with
  | nil => simp [headLitNE] at h
  | cons it rest =>
    cases it with
    | hole n f2 => simp [headLitNE] at h
    | lit s =>
      have hs : s ≠ "" := by
        simp only [headLitNE, bne_iff_ne, ne_eq] at h
        intro he
        rw [he] at h
        exact h rfl
      unfold pyFormat
      split
      · show renderT kw (.lit s :: rest) ≠ ""
        simp only [renderT]
        exact str_append_ne _ _ hs
      · show rawT (.lit s :: rest) ≠ ""
        simp only [rawT]
        exact str_append_ne _ _ hs

theorem tbl_cases (s : String) :
    lk s TRANSLATIONS = none ∨ lk s TRANSLATIONS = some enTable ∨
      lk s TRANSLATIONS = some esTable := by
  simp only [TRANSLATIONS, lk]
  split
  · exact Or.inr (Or.inl rfl)
  · split
    · exact Or.inr (Or.inr rfl)
    · exact Or.inl rfl

theorem goodKey_elim (k : String) (h : goodKey k = true) :
    ∃ ta tb, lk k enTable = some ta ∧ lk k esTable = some tb ∧
      headLitNE ta = true ∧ headLitNE tb = true := by
  unfold goodKey at h
  rcases h1 : lk k enTable with _ | ta <;> rcases h2 : lk k esTable with _ | tb <;>
    rw [h1, h2] at h <;> simp at h
  exact ⟨ta, tb, rfl, rfl, h.1, h.2⟩

theorem tr_ne (lang k : String) (kw : List (String × JVal))
    (h : goodKey k = true) : get_translation lang k kw ≠ "" := by
  obtain ⟨ta, tb, he, hs, hta, htb⟩ := goodKey_elim k h
  unfold get_translation
  cases hsome : (lk (if lang = "" then "en" else lowerStr lang) TRANSLATIONS).isSome
  · simp only [hsome, Bool.false_eq_true, if_false]
    have hen : lk "en" TRANSLATIONS = some enTable := rfl
    rw [hen]
    show (match lk k enTable with
          | some t => pyFormat t kw
          | none => match lk k enTable with
            | some t => pyFormat t kw
            | none => k) ≠ ""
    rw [he]
    exact pyFormat_ne _ _ hta
  · simp only [hsome, if_true]
    rcases tbl_cases (if lang = "" then "en" else lowerStr lang) with hnone | hben | hbes
    · rw [hnone] at hsome; simp at hsome
    · rw [hben]
      show (match lk k enTable with
            | some t => pyFormat t kw
            | none => match lk k enTable with
              | some t => pyFormat t kw
              | none => k) ≠ ""
      rw [he]
      exact pyFormat_ne _ _ hta
    · rw [hbes]
      show (match lk k esTable with
            | some t => pyFormat t kw
            | none => match lk k enTable with
              | some t => pyFormat t kw
              | none => k) ≠ ""
      rw [hs]
      exact pyFormat_ne _ _ htb

set_option maxHeartbeats 2000000 in
theorem generate_speech_ne (intent : String) (result : RDict) (language : String) :
    generate_speech intent result language ≠ "" := by
  unfold generate_speech
  dsimp only
  repeat' split
  all_goals
    first
    | (apply tr_ne; decide)
    | { apply str_append_ne
        first
        | (apply tr_ne; decide)
        | { apply str_append_ne
            first
            | (apply tr_ne; decide)
            | { simp only [List.append_assoc, List.cons_append, List.nil_append]
                apply joinSp_cons_ne
                apply tr_ne
                decide } } }
    | { simp only [List.append_assoc, List.cons_append, List.nil_append]
        apply joinSp_cons_ne
        apply tr_ne
        decide }

theorem handlerErrorSpeech_ne (language e : String) :
    handlerErrorSpeech language e ≠ "" := by
  unfold handlerErrorSpeech
  repeat' split
  all_goals
    first
    | (apply tr_ne; decide)
    | { apply str_append_ne
        apply str_append_ne
        apply tr_ne
        decide }

/-- C1: For every VoiceEvent (any transcript, device entities, language),
any classifier outcome (including a raised exception) and any store/handler
behaviour (including empty results and raised exceptions), `route_intent`
returns a well-formed `OMIResponse` envelope whose `speech` is non-empty.
The function is total over all contexts, which is the embedded form of
"never propagates an exception to its caller": every collaborator outcome,
error outcomes included, is mapped to a populated envelope. -/
theorem C1_route_intent_speech_nonempty (ctx : RouterCtx) (req : OMIEventRequest) :
    (route_intent ctx req).speech ≠ "" := by
  unfold route_intent
  dsimp only
  split
  · split
    · exact generate_speech_ne _ _ _
    · exact handlerErrorSpeech_ne _ _
  · apply tr_ne; decide

/-- C2: the envelope has `ok = false` exactly when no handler is registered
for the resolved intent or the dispatched handler raised; and when the
handler returns its own `{error: true, ...}` marker without raising, the
envelope still has `ok = true` and carries the marker unchanged in `result`.
(The claim's third disjunct — classification throwing past both
classifiers — cannot occur: the rule-based fallback `parse_intent_rules` is
a total function, so `classify` always yields a parse.) -/
theorem C2_ok_iff_handler_failure (ctx : RouterCtx) (req : OMIEventRequest) :
    ((route_intent ctx req).ok = false ↔
      (INTENT_HANDLERS.contains (classify ctx req).intent = false ∨
        ∃ e, ctx.handlerOutcome (classify ctx req).intent (classify ctx req).entities =
          .error e)) ∧
    (∀ r, INTENT_HANDLERS.contains (classify ctx req).intent = true →
      ctx.handlerOutcome (classify ctx req).intent (classify ctx req).entities = .ok r →
      (route_intent ctx req).ok = true ∧ (route_intent ctx req).result = r) := by
  constructor
  · unfold route_intent
    dsimp only
    split
    · rename_i hc
      split
      · rename_i e he
        simp [hc, he]
        simpa using hc
      · rename_i e he
        simp [hc, he]
    · rename_i hc
      simp only [Bool.not_eq_true] at hc
      simp [hc]
      exact Or.inl (by simpa using hc)
  · intro r hc ho
    unfold route_intent
    dsimp only
    split
    · split
      · rename_i v hv
        rw [ho] at hv
        cases hv
        exact ⟨rfl, rfl⟩
      · rename_i e he
        rw [ho] at he
        cases he
    · rename_i h
      exact absurd hc h

/-- C3: the rule-based classifier tests all five pattern groups one after
the other for every transcript, each matching group overwriting the intent
assigned by an earlier one, so the resulting intent is exactly that of the
last matching group in table order (stock first, delivery status last),
with the stock intent as default — the behaviour `lastMatchIntent` states
declaratively. -/
theorem C3_last_matching_group_wins (req : OMIEventRequest) :
    (parse_intent_rules req).intent = lastMatchIntent (lowerStr req.transcript).data := by
  unfold parse_intent_rules
  generalize (lowerStr req.transcript).data = t
  generalize req.entities = e0
  cases h1 : stockMatch t <;> cases h2 : reorderMatch t <;> cases h3 : salesMatch t <;>
    cases h4 : supplierMatch t <;> cases h5 : deliveryMatch t <;>
      simp [parseCore, lastMatchIntent, h1, h2, h3, h4, h5]

/-- C4: for every transcript and device entity mapping the rule-based
classifier yields one of the five canonical intents (it is a total function,
the embedded form of "never raises"), and when no pattern of any group
matches the lower-cased transcript the intent is the default `get_stock`. -/
theorem C4_intent_canonical (req : OMIEventRequest) :
    (parse_intent_rules req).intent ∈ INTENT_HANDLERS ∧
    ((stockMatch (lowerStr req.transcript).data = false ∧
      reorderMatch (lowerStr req.transcript).data = false ∧
      salesMatch (lowerStr req.transcript).data = false ∧
      supplierMatch (lowerStr req.transcript).data = false ∧
      deliveryMatch (lowerStr req.transcript).data = false) →
      (parse_intent_rules req).intent = "get_stock") := by
  unfold parse_intent_rules
  generalize (lowerStr req.transcript).data = t
  generalize req.entities = e0
  constructor
  · cases h1 : stockMatch t <;> cases h2 : reorderMatch t <;> cases h3 : salesMatch t <;>
      cases h4 : supplierMatch t <;> cases h5 : deliveryMatch t <;>
        simp [parseCore, INTENT_HANDLERS, h1, h2, h3, h4, h5]
  · rintro ⟨h1, h2, h3, h4, h5⟩
    simp [parseCore, h1, h2, h3, h4, h5]

/-- Witness for C4 at a transcript matching no group. -/
theorem C4_intent_canonical_witness :
    (parse_intent_rules ⟨"hello", [], none, none⟩).intent = "get_stock" :=
  (C4_intent_canonical ⟨"hello", [], none, none⟩).2
    (by constructor
        · decide
        · constructor
          · decide
          · constructor
            · decide
            · constructor <;> decide)

/-- C5: the rule-based classifier on "Restock 25 black jeans" with an empty
device mapping.  The intent and `quantity`/`color` entities are as the spec
says, but the size vocabulary contains the single-letter tokens "s" and "l",
which match as substrings ("restock"/"jeans" contain "s", "black" contains
"l"), so the code additionally emits `size = "l"` — against the intent
documented by the repository's own test suite (`test_entity_extraction_size`
expects `size = "large"` for a transcript containing "large", while this
substring matching yields `"l"`). -/
theorem C5_restock_scenario_eval :
    parse_intent_rules ⟨"Restock 25 black jeans", [], none, none⟩ =
      ⟨"create_reorder",
       [("quantity", .i 25), ("color", .s "black"), ("size", .s "l")]⟩ := rfl

/-! ## Key-preservation of the entity-extraction steps (for C9) -/

theorem lk_eset_isSome_of {m : EntMap} {k : String} (k' : String) (v : JVal)
    (h : (lk k m).isSome = true) : (lk k (eset m k' v)).isSome = true := by
  induction m with
  | nil => simp [lk] at h
  | cons p rest ih =>
    obtain ⟨pk, pv⟩ := p
    by_cases hk : pk = k'
    · subst hk
      simp only [eset, if_pos rfl]
      by_cases hkk : pk = k
      · simp [lk, hkk]
      · simp only [lk, if_neg hkk] at h
        simp [lk, hkk, h]
    · simp only [eset, if_neg hk]
      by_cases hkk : pk = k
      · simp [lk, hkk]
      · simp only [lk, if_neg hkk] at h
        simp only [lk, if_neg hkk]
        exact ih h

theorem lk_foldl_isSome {β : Type} {k : String} (f : EntMap → β → EntMap)
    (hf : ∀ m b, (lk k m).isSome = true → (lk k (f m b)).isSome = true) :
    ∀ (l : List β) (m : EntMap), (lk k m).isSome = true →
      (lk k (l.foldl f m)).isSome = true := by
  intro l
  induction l with
  | nil => intro m h; simpa using h
  | cons b bs ih => intro m h; exact ih (f m b) (hf m b h)

theorem colorStep_keys {k : String} (t : List Char) (e : EntMap)
    (h : (lk k e).isSome = true) : (lk k (colorStep t e)).isSome = true := by
  unfold colorStep
  refine lk_foldl_isSome _ ?_ _ _ h
  intro m c hm
  split
  · exact lk_eset_isSome_of _ _ hm
  · exact hm

theorem sizeStep_keys {k : String} (t : List Char) (e : EntMap)
    (h : (lk k e).isSome = true) : (lk k (sizeStep t e)).isSome = true := by
  unfold sizeStep
  refine lk_foldl_isSome _ ?_ _ _ h
  intro m c hm
  split
  · exact lk_eset_isSome_of _ _ hm
  · exact hm

theorem skuStep_keys {k : String} (t : List Char) (e : EntMap)
    (h : (lk k e).isSome = true) : (lk k (skuStep t e)).isSome = true := by
  unfold skuStep
  split
  · split
    · exact lk_eset_isSome_of _ _ h
    · exact h
  · exact h

theorem qtyStep_keys {k : String} (t : List Char) (e : EntMap)
    (h : (lk k e).isSome = true) : (lk k (qtyStep t e)).isSome = true := by
  unfold qtyStep
  split
  · exact lk_eset_isSome_of _ _ h
  · exact h

theorem windowStep_keys {k : String} (t : List Char) (e : EntMap)
    (h : (lk k e).isSome = true) : (lk k (windowStep t e)).isSome = true := by
  unfold windowStep
  exact lk_eset_isSome_of _ _ h

theorem idStep_keys {k : String} (t : List Char) (e : EntMap)
    (h : (lk k e).isSome = true) : (lk k (idStep t e)).isSome = true := by
  unfold idStep
  split
  · exact lk_eset_isSome_of _ _ (lk_eset_isSome_of _ _ h)
  · exact h

theorem cond_keys {k : String} (b : Bool) (f : EntMap → EntMap)
    (hf : ∀ m, (lk k m).isSome = true → (lk k (f m)).isSome = true)
    (e : EntMap) (h : (lk k e).isSome = true) :
    (lk k (if b then f e else e)).isSome = true := by
  cases b
  · simpa using h
  · simpa using hf e h

theorem parseCore_keys {k : String} (t : List Char) (e0 : EntMap)
    (h : (lk k e0).isSome = true) : (lk k (parseCore t e0).entities).isSome = true := by
  unfold parseCore
  dsimp only
  refine cond_keys _ _ (fun m hm => idStep_keys t m hm) _ ?_
  refine cond_keys _ _ (fun m hm => skuStep_keys t m hm) _ ?_
  refine cond_keys _ _ (fun m hm => windowStep_keys t m hm) _ ?_
  refine cond_keys _ _
    (fun m hm => sizeStep_keys t _ (colorStep_keys t _ (qtyStep_keys t m hm))) _ ?_
  refine cond_keys _ _
    (fun m hm => skuStep_keys t _ (sizeStep_keys t _ (colorStep_keys t m hm))) _ ?_
  exact h

/-- C9 counterexample: the received event is NOT immutable.  With device
entities `{sku: "9999"}` and transcript "Restock 25 black jeans", Python's
`entities = request.entities or {}` aliases the device dict (it is truthy),
so the classifier's writes land in the event's own entities object: after
classification it holds `quantity`, `color` and `size` alongside `sku`,
i.e. it is no longer exactly what the device supplied. -/
theorem C9_event_mutated_counterexample :
    entitiesAfterRules ⟨"Restock 25 black jeans", [("sku", .s "9999")], none, none⟩ ≠
      (⟨"Restock 25 black jeans", [("sku", .s "9999")], none, none⟩ : OMIEventRequest).entities := by
  intro hc
  have h4 : (entitiesAfterRules
      ⟨"Restock 25 black jeans", [("sku", .s "9999")], none, none⟩).length = 4 := rfl
  rw [hc] at h4
  simp at h4

/-- C9 amended: the classifier works in place on the device's entities
mapping.  When the device-supplied mapping is empty (falsy in Python), a
fresh mapping is used and the event is untouched; when it is non-empty, the
extracted entities are written directly into the event's own mapping — the
mapping the classifier returns IS the event's mapping after the call — and
every key the device supplied is still present in it (values may be
overwritten, keys are never removed). -/
theorem C9_entities_in_place (req : OMIEventRequest)
    (h : req.entities.isEmpty = false) :
    entitiesAfterRules req = (parse_intent_rules req).entities ∧
    ∀ k, (lk k req.entities).isSome = true →
      (lk k (entitiesAfterRules req)).isSome = true := by
  constructor
  · unfold entitiesAfterRules
    rw [h]
    simp
  · intro k hk
    unfold entitiesAfterRules
    rw [h]
    simp only [Bool.false_eq_true, if_false]
    unfold parse_intent_rules
    exact parseCore_keys _ _ hk

/-- Witness for C9's amended claim at a concrete mutated event. -/
theorem C9_entities_in_place_witness :
    entitiesAfterRules ⟨"Restock 25 black jeans", [("sku", .s "9999")], none, none⟩ =
      (parse_intent_rules ⟨"Restock 25 black jeans", [("sku", .s "9999")], none, none⟩).entities ∧
    (lk "sku" (entitiesAfterRules
      ⟨"Restock 25 black jeans", [("sku", .s "9999")], none, none⟩)).isSome = true :=
  ⟨(C9_entities_in_place ⟨"Restock 25 black jeans", [("sku", .s "9999")], none, none⟩ rfl).1,
   (C9_entities_in_place ⟨"Restock 25 black jeans", [("sku", .s "9999")], none, none⟩ rfl).2
     "sku" rfl⟩

/-- C6: when the product locator in the entities matches zero inventory
rows, `handle_create_reorder` returns the `{error: true, error_message:
"Product not found"}` marker and inserts no task row (for either insert
outcome); when a product is found, the result's quantity defaults to 50
when absent from the entities, and the inserted task row has due date
`today + 7`, status "Pending" and creator "System" (both employee fields). -/
theorem C6_create_reorder_contract (entities : EntMap) (inv : List InvRow)
    (today : Int) (gid : String) :
    (build_inventory_query entities inv = [] →
      ∀ insertOK, handle_create_reorder entities inv today gid insertOK =
        ([("error", .b true), ("error_message", .s "Product not found")], [])) ∧
    (∀ p rest, build_inventory_query entities inv = p :: rest →
      ((lk "quantity" entities = none →
        lk "quantity" (handle_create_reorder entities inv today gid true).1 =
          some (.i 50)) ∧
       (handle_create_reorder entities inv today gid true).2 =
        [⟨gid, "System", "System", "Reorder", today, today + 7, "Pending",
          p.product_id⟩])) := by
  constructor
  · intro h insertOK
    unfold handle_create_reorder
    rw [h]
    rfl
  · intro p rest h
    constructor
    · intro hq
      unfold handle_create_reorder
      rw [h]
      simp [jgetD, hq, DEFAULT_REORDER_QUANTITY, lk]
    · unfold handle_create_reorder
      rw [h]
      simp [EMPLOYEE_SYSTEM, TASK_TYPE_REORDER, TASK_STATUS_PENDING, REORDER_DUE_DAYS]

/-- Witness for C6: an empty store (not-found marker, nothing inserted) and
a one-row store (row inserted with the defaulted quantity). -/
theorem C6_create_reorder_contract_witness :
    (handle_create_reorder [] [] 100 "TASKAB12CD" true =
      ([("error", .b true), ("error_message", .s "Product not found")], [])) ∧
    (lk "quantity" (handle_create_reorder []
        [⟨"P1", "Hoodie", "Tops", "red", "M", 10, 5, some "SUP-007"⟩]
        100 "TASKAB12CD" true).1 = some (.i 50) ∧
     (handle_create_reorder []
        [⟨"P1", "Hoodie", "Tops", "red", "M", 10, 5, some "SUP-007"⟩]
        100 "TASKAB12CD" true).2 =
      [⟨"TASKAB12CD", "System", "System", "Reorder", 100, 107, "Pending", "P1"⟩]) := by
  refine ⟨(C6_create_reorder_contract [] [] 100 "TASKAB12CD").1 rfl true, ?_⟩
  have h := (C6_create_reorder_contract []
    [⟨"P1", "Hoodie", "Tops", "red", "M", 10, 5, some "SUP-007"⟩] 100 "TASKAB12CD").2
    ⟨"P1", "Hoodie", "Tops", "red", "M", 10, 5, some "SUP-007"⟩ [] rfl
  exact ⟨h.1 rfl, by rw [h.2]; norm_num⟩

/-! ## Maximum-date facts (for C7) -/

theorem foldl_max_le_init (l : List SaleRow) :
    ∀ a : Int, a ≤ l.foldl (fun m x => max m x.sale_date) a := by
  induction l with
  | nil => intro a; simp
  | cons r rest ih =>
    intro a
    exact le_trans (le_max_left a r.sale_date) (ih (max a r.sale_date))

theorem foldl_max_le_of_mem (l : List SaleRow) :
    ∀ (a : Int) (x : SaleRow), x ∈ l →
      x.sale_date ≤ l.foldl (fun m y => max m y.sale_date) a := by
  induction l with
  | nil => intro a x hx; cases hx
  | cons r rest ih =>
    intro a x hx
    rcases List.mem_cons.mp hx with hx | hx
    · subst hx
      exact le_trans (le_max_right a x.sale_date) (foldl_max_le_init rest _)
    · exact ih _ x hx

theorem foldl_max_mem (l : List SaleRow) :
    ∀ a : Int, l.foldl (fun m x => max m x.sale_date) a = a ∨
      l.foldl (fun m x => max m x.sale_date) a ∈ l.map SaleRow.sale_date := by
  induction l with
  | nil => intro a; exact Or.inl rfl
  | cons r rest ih =>
    intro a
    rcases ih (max a r.sale_date) with h | h
    · rcases max_cases a r.sale_date with ⟨hm, _⟩ | ⟨hm, _⟩
      · exact Or.inl (by rw [List.foldl_cons, h, hm])
      · refine Or.inr ?_
        rw [List.foldl_cons, h, hm]
        simp
    · exact Or.inr (by rw [List.foldl_cons]; simp [h])

theorem maxSaleDate_spec (sales : List SaleRow) (d : Int)
    (h : maxSaleDate sales = some d) :
    d ∈ sales.map SaleRow.sale_date ∧ ∀ x ∈ sales, x.sale_date ≤ d := by
  cases sales with
  | nil => simp [maxSaleDate] at h
  | cons r rest =>
    simp only [maxSaleDate, Option.some.injEq] at h
    subst h
    constructor
    · rcases foldl_max_mem rest r.sale_date with h | h
      · rw [h]; simp
      · simp [h]
    · intro x hx
      rcases List.mem_cons.mp hx with hx | hx
      · subst hx; exact foldl_max_le_init rest _
      · exact foldl_max_le_of_mem rest _ x hx

/-- C7: `handle_get_sales_summary` anchors its date window at the most
recent sale date present in the store (`end_date` is the maximum sale date),
falling back to `today` only when the store has no sales; and whenever no
sale falls inside `[reference - window_days, reference]` it returns
`total_quantity = 0`, `total_revenue = 0.0` and `transaction_count = 0` as a
success payload carrying no error marker.  The hypothesis covers every
request whose `window_days` entity is an integer or absent (defaulting to
`DEFAULT_SALES_WINDOW_DAYS = 7`). -/
theorem C7_sales_summary_anchor_and_zero (entities : EntMap) (sales : List SaleRow)
    (today w : Int)
    (hw : lk "window_days" entities = some (.i w) ∨
          (lk "window_days" entities = none ∧ w = DEFAULT_SALES_WINDOW_DAYS)) :
    lk "end_date" (handle_get_sales_summary entities sales today) =
      some (.i ((maxSaleDate sales).getD today)) ∧
    (∀ d, maxSaleDate sales = some d →
      d ∈ sales.map SaleRow.sale_date ∧ ∀ x ∈ sales, x.sale_date ≤ d) ∧
    ((∀ r ∈ sales, r.sale_date < (maxSaleDate sales).getD today - w ∨
        (maxSaleDate sales).getD today < r.sale_date) →
      lk "total_quantity" (handle_get_sales_summary entities sales today) = some (.i 0) ∧
      lk "total_revenue" (handle_get_sales_summary entities sales today) = some (.q 0) ∧
      lk "transaction_count" (handle_get_sales_summary entities sales today) =
        some (.i 0) ∧
      lk "error" (handle_get_sales_summary entities sales today) = none) := by
  have hfilter : ∀ start fin : Int,
      (∀ r ∈ sales, r.sale_date < start ∨ fin < r.sale_date) →
      sales.filter (fun r => start ≤ r.sale_date && r.sale_date ≤ fin) = [] := by
    intro start fin hrows
    rw [List.filter_eq_nil]
    intro r hr
    rcases hrows r hr with h | h <;> simp <;> omega
  rcases hw with hw | ⟨hw, hwd⟩
  all_goals
    first
    | (unfold handle_get_sales_summary
       rw [hw]
       dsimp only
       refine ⟨by simp [lk], fun d hd => maxSaleDate_spec sales d hd, fun hrows => ?_⟩
       rw [hfilter _ _ hrows]
       refine ⟨by simp [lk], ?_, by simp [lk], by simp [lk]⟩
       simp [lk, round2])
    | (subst hwd
       unfold handle_get_sales_summary
       rw [hw]
       dsimp only
       refine ⟨by simp [lk], fun d hd => maxSaleDate_spec sales d hd, fun hrows => ?_⟩
       rw [hfilter _ _ hrows]
       refine ⟨by simp [lk], ?_, by simp [lk], by simp [lk]⟩
       simp [lk, round2])

/-- Witness for C7: a store whose only sale is on day 100 and `today = 50`:
the window is anchored at day 100 (not at today), and with no sale inside
the window the totals are zero with no error marker. -/
theorem C7_sales_summary_anchor_and_zero_witness :
    lk "end_date" (handle_get_sales_summary [("window_days", .i (-1))]
      [⟨100, 5, 10⟩] 50) = some (.i 100) ∧
    lk "total_quantity" (handle_get_sales_summary [("window_days", .i (-1))]
      [⟨100, 5, 10⟩] 50) = some (.i 0) ∧
    lk "total_revenue" (handle_get_sales_summary [("window_days", .i (-1))]
      [⟨100, 5, 10⟩] 50) = some (.q 0) ∧
    lk "error" (handle_get_sales_summary [("window_days", .i (-1))]
      [⟨100, 5, 10⟩] 50) = none := by
  have h := C7_sales_summary_anchor_and_zero [("window_days", .i (-1))]
    [⟨100, 5, 10⟩] 50 (-1) (Or.inl rfl)
  have hz := h.2.2 (by decide)
  exact ⟨h.1, hz.1, hz.2.1, hz.2.2.2⟩

/-! ## Lookup facts over the translation tables (for C8) -/

theorem lk_isSome_congr {α β : Type} :
    ∀ (l1 : List (String × α)) (l2 : List (String × β)),
      l1.map Prod.fst = l2.map Prod.fst →
      ∀ k, (lk k l1).isSome = (lk k l2).isSome := by
  intro l1
  induction l1 with
  | nil =>
    intro l2 h k
    cases l2 with
    | nil => rfl
    | cons b bs => simp at h
  | cons a as ih =>
    intro l2 h k
    cases l2 with
    | nil => simp at h
    | cons b bs =>
      simp only [List.map_cons, List.cons.injEq] at h
      obtain ⟨h1, h2⟩ := h
      simp only [lk, h1]
      by_cases hk : b.1 = k
      · simp [hk]
      · simp only [if_neg hk]
        exact ih bs h2 k

theorem lk_mem {α : Type} {k : String} {v : α} :
    ∀ {l : List (String × α)}, lk k l = some v → (k, v) ∈ l := by
  intro l
  induction l with
  | nil => intro h; simp [lk] at h
  | cons p rest ih =>
    intro h
    obtain ⟨pk, pv⟩ := p
    by_cases hk : pk = k
    · simp only [lk, if_pos hk, Option.some.injEq] at h
      subst hk
      subst h
      exact List.mem_cons_self _ _
    · simp only [lk, if_neg hk] at h
      exact List.mem_cons_of_mem _ (ih h)

/-- `pyFormat` with no keyword arguments returns the template's raw text
(either every placeholder misses and the `KeyError` branch returns it, or
there is no placeholder and the rendering is the literal text itself). -/
theorem pyFormat_nil (t : Template) : pyFormat t [] = rawT t := by
  unfold pyFormat
  split
  · rename_i h
    induction t with
    | nil => rfl
    | cons it rest ih =>
      cases it with
      | lit s =>
        simp only [List.all_cons, Bool.and_eq_true] at h
        simp only [renderT, rawT]
        rw [ih h.2]
      | hole n f2 =>
        simp only [List.all_cons, lk, Option.isSome_none] at h
        simp at h
  · rfl

theorem en_es_keys_agree (k : String) :
    (lk k enTable).isSome = (lk k esTable).isSome :=
  lk_isSome_congr enTable esTable (by decide) k

theorem enTable_raw_ne (k : String) (t : Template) (h : lk k enTable = some t) :
    rawT t ≠ k := by
  have hmem := lk_mem h
  have hall : enTable.all (fun kv => rawT kv.2 != kv.1) = true := by decide
  have := List.all_eq_true.mp hall (k, t) hmem
  simpa using this

theorem esTable_raw_ne (k : String) (t : Template) (h : lk k esTable = some t) :
    rawT t ≠ k := by
  have hmem := lk_mem h
  have hall : esTable.all (fun kv => rawT kv.2 != kv.1) = true := by decide
  have := List.all_eq_true.mp hall (k, t) hmem
  simpa using this

theorem get_translation_defined (lang key : String) (ta tb : Template)
    (he : lk key enTable = some ta) (hs : lk key esTable = some tb) :
    get_translation lang key [] = rawT ta ∨ get_translation lang key [] = rawT tb := by
  unfold get_translation
  cases hsome : (lk (if lang = "" then "en" else lowerStr lang) TRANSLATIONS).isSome
  · simp only [hsome, Bool.false_eq_true, if_false]
    have hen : lk "en" TRANSLATIONS = some enTable := rfl
    rw [hen]
    show (match lk key enTable with
          | some t => pyFormat t []
          | none => match lk key enTable with
            | some t => pyFormat t []
            | none => key) = rawT ta ∨ _ = rawT tb
    rw [he]
    exact Or.inl (pyFormat_nil ta)
  · simp only [hsome, if_true]
    rcases tbl_cases (if lang = "" then "en" else lowerStr lang) with hnone | hben | hbes
    · rw [hnone] at hsome; simp at hsome
    · rw [hben]
      show (match lk key enTable with
            | some t => pyFormat t []
            | none => match lk key enTable with
              | some t => pyFormat t []
              | none => key) = rawT ta ∨ _ = rawT tb
      rw [he]
      exact Or.inl (pyFormat_nil ta)
    · rw [hbes]
      show (match lk key esTable with
            | some t => pyFormat t []
            | none => match lk key enTable with
              | some t => pyFormat t []
              | none => key) = rawT ta ∨
           (match lk key esTable with
            | some t => pyFormat t []
            | none => match lk key enTable with
              | some t => pyFormat t []
              | none => key) = rawT tb
      rw [hs]
      exact Or.inr (pyFormat_nil tb)

theorem get_translation_undefined (lang key : String)
    (he : lk key enTable = none) (hs : lk key esTable = none) :
    get_translation lang key [] = key := by
  unfold get_translation
  cases hsome : (lk (if lang = "" then "en" else lowerStr lang) TRANSLATIONS).isSome
  · simp only [hsome, Bool.false_eq_true, if_false]
    have hen : lk "en" TRANSLATIONS = some enTable := rfl
    rw [hen]
    show (match lk key enTable with
          | some t => pyFormat t []
          | none => match lk key enTable with
            | some t => pyFormat t []
            | none => key) = key
    rw [he]
  · simp only [hsome, if_true]
    rcases tbl_cases (if lang = "" then "en" else lowerStr lang) with hnone | hben | hbes
    · rw [hnone] at hsome; simp at hsome
    · rw [hben]
      show (match lk key enTable with
            | some t => pyFormat t []
            | none => match lk key enTable with
              | some t => pyFormat t []
              | none => key) = key
      rw [he]
    · rw [hbes]
      show (match lk key esTable with
            | some t => pyFormat t []
            | none => match lk key enTable with
              | some t => pyFormat t []
              | none => key) = key
      rw [hs, he]

/-- C8: the translation lookup is a total function resolving in a two-level
fallback.  A language whose (lowered) code is absent from the phrase table
behaves exactly like the default language English for every key; and the
returned text is the key string itself precisely when the key is undefined
in every table (with the tables of this program, whose key sets coincide). -/
theorem C8_translation_two_level_fallback (lang key : String) :
    (lk (if lang = "" then "en" else lowerStr lang) TRANSLATIONS = none →
      get_translation lang key [] = get_translation "en" key []) ∧
    (get_translation lang key [] = key ↔
      (lk key enTable = none ∧ lk key esTable = none)) := by
  constructor
  · intro habs
    have hres : get_translation "en" key [] =
        (match lk key enTable with
         | some t => pyFormat t []
         | none => match lk key enTable with
           | some t => pyFormat t []
           | none => key) := rfl
    rw [hres]
    unfold get_translation
    dsimp only
    rw [habs]
    rfl
  · constructor
    · intro hres
      rcases he : lk key enTable with _ | ta
      · rcases hs : lk key esTable with _ | tb
        · exact ⟨rfl, rfl⟩
        · have hagree := en_es_keys_agree key
          rw [he, hs] at hagree
          simp at hagree
      · have hagree := en_es_keys_agree key
        rcases hs : lk key esTable with _ | tb
        · rw [he, hs] at hagree; simp at hagree
        · rcases get_translation_defined lang key ta tb he hs with hd | hd
          · rw [hres] at hd
            exact absurd hd.symm (enTable_raw_ne key ta he)
          · rw [hres] at hd
            exact absurd hd.symm (esTable_raw_ne key tb hs)
    · rintro ⟨he, hs⟩
      exact get_translation_undefined lang key he hs

/-- Witness for C8: an unknown language falls back to the English template,
and an undefined key is returned literally. -/
theorem C8_translation_two_level_fallback_witness :
    get_translation "fr" "stock_prefix" [] = get_translation "en" "stock_prefix" [] ∧
    get_translation "fr" "no_such_key" [] = "no_such_key" :=
  ⟨(C8_translation_two_level_fallback "fr" "stock_prefix").1 rfl,
   (C8_translation_two_level_fallback "fr" "no_such_key").2.mpr ⟨rfl, rfl⟩⟩

/-- C10: the speech for a successful reorder never carries the created task
identifier.  `handle_create_reorder` returns the identifier only under
`task_id`, while `generate_speech` reads `reorder_id` and falls back to the
literal default "order": the result has no `reorder_id` key, the rendered
speech is the `reorder_success` template with `reorder_id` substituted by
"order", and the speech is invariant under changing the generated
identifier. -/
theorem C10_reorder_speech_drops_task_id (entities : EntMap) (inv : List InvRow)
    (today : Int) (g1 g2 lang : String) (p : InvRow) (rest : List InvRow)
    (hq : build_inventory_query entities inv = p :: rest) :
    lk "reorder_id" (handle_create_reorder entities inv today g1 true).1 = none ∧
    lk "task_id" (handle_create_reorder entities inv today g1 true).1 = some (.s g1) ∧
    generate_speech "create_reorder"
        (handle_create_reorder entities inv today g1 true).1 lang =
      generate_speech "create_reorder"
        (handle_create_reorder entities inv today g2 true).1 lang ∧
    generate_speech "create_reorder"
        (handle_create_reorder entities inv today g1 true).1 "en" =
      get_translation "en" "reorder_success"
        [("reorder_id", .s "order"),
         ("quantity", jgetD entities "quantity" (.i 50)),
         ("product_name", .s p.name),
         ("status", .s "pending")] := by
  have hr : ∀ g : String, (handle_create_reorder entities inv today g true).1 =
      [("task_id", .s g), ("product_id", .s p.product_id),
       ("product_name", .s p.name),
       ("quantity", jgetD entities "quantity" (.i DEFAULT_REORDER_QUANTITY)),
       ("status", .s "pending"),
       ("supplier_id", match p.supplier_id with | some s => .s s | none => .null),
       ("due_date", .i (today + REORDER_DUE_DAYS))] := by
    intro g
    unfold handle_create_reorder
    rw [hq]
    rfl
  refine ⟨?_, ?_, ?_, ?_⟩
  · rw [hr g1]
    rfl
  · rw [hr g1]
    rfl
  · rw [hr g1, hr g2]
    rfl
  · rw [hr g1]
    rfl

/-- Witness for C10 at a concrete store, entities and two identifiers. -/
theorem C10_reorder_speech_drops_task_id_witness :
    lk "reorder_id" (handle_create_reorder []
      [⟨"P1", "Hoodie", "Tops", "red", "M", 10, 5, some "SUP-007"⟩]
      100 "TASKAAAAAA" true).1 = none ∧
    generate_speech "create_reorder" (handle_create_reorder []
        [⟨"P1", "Hoodie", "Tops", "red", "M", 10, 5, some "SUP-007"⟩]
        100 "TASKAAAAAA" true).1 "en" =
      generate_speech "create_reorder" (handle_create_reorder []
        [⟨"P1", "Hoodie", "Tops", "red", "M", 10, 5, some "SUP-007"⟩]
        100 "TASKBBBBBB" true).1 "en" := by
  have h := C10_reorder_speech_drops_task_id []
    [⟨"P1", "Hoodie", "Tops", "red", "M", 10, 5, some "SUP-007"⟩]
    100 "TASKAAAAAA" "TASKBBBBBB" "en"
    ⟨"P1", "Hoodie", "Tops", "red", "M", 10, 5, some "SUP-007"⟩ [] rfl
  exact ⟨h.1, h.2.2.1⟩

/-- Witness for C2: a data operation that returns the "Product not found"
error marker without raising yields an `ok = true` envelope carrying the
marker in `result`. -/
theorem C2_ok_iff_handler_failure_witness :
    (route_intent
      ⟨"rules", "en", .error "unavailable",
       fun _ _ => .ok [("error", .b true), ("error_message", .s "Product not found")]⟩
      ⟨"Restock 25 black jeans", [], none, some "en"⟩).ok = true ∧
    (route_intent
      ⟨"rules", "en", .error "unavailable",
       fun _ _ => .ok [("error", .b true), ("error_message", .s "Product not found")]⟩
      ⟨"Restock 25 black jeans", [], none, some "en"⟩).result =
      [("error", .b true), ("error_message", .s "Product not found")] :=
  (C2_ok_iff_handler_failure
    ⟨"rules", "en", .error "unavailable",
     fun _ _ => .ok [("error", .b true), ("error_message", .s "Product not found")]⟩
    ⟨"Restock 25 black jeans", [], none, some "en"⟩).2
    [("error", .b true), ("error_message", .s "Product not found")] rfl rfl
